import Mathlib

/-!
A shallow embedding of the allama gateway's provider-resolution and
protocol-translation core (Go sources under internal/router, internal/provider,
internal/storage, internal/models), together with proofs about it.

JSON documents are modelled by an explicit AST (`Json`); a reply body built by
`c.JSON`/`c.Data`-of-marshalled-JSON is represented by the AST of the document,
while passthrough bodies are raw byte strings.  Outbound I/O (the HTTP
transport, the adapter `Chat` calls, the provider model catalogs, the clock)
is injected through `RouterEnv`, and every upstream call a handler makes is
recorded in an effect trace (`Call`).
-/

namespace Allama

/-- JSON value AST.  Numbers are restricted to integers, which covers every
document the embedded code constructs. -/
inductive Json where
  | null : Json
  | bool (b : Bool) : Json
  | num (n : Int) : Json
  | str (s : String) : Json
  | arr (elems : List Json) : Json
  | obj (fields : List (String × Json)) : Json

/-- Last-wins field lookup, matching encoding/json semantics where a duplicated
object key is decoded repeatedly and the last occurrence survives. -/
def lookupLast (k : String) : List (String × Json) → Option Json
  | [] => none
  | f :: rest =>
    match lookupLast k rest with
    | some v => some v
    | none => if f.1 == k then some f.2 else none

/-- Field access on a JSON document (none when the document is not an object). -/
def Json.getField (j : Json) (k : String) : Option Json :=
  match j with
  | .obj fields => lookupLast k fields
  | _ => none

/-- models.Provider (internal/models/models.go). -/
structure Provider where
  id : Int
  name : String
  apiKey : String
  host : String
  isActive : Bool
deriving Repr, DecidableEq

/-- models.Model (internal/models/models.go). -/
structure Model where
  id : Int
  providerID : Int
  name : String
  modelID : String
  isActive : Bool
deriving Repr, DecidableEq

/-- The SQLite database contents: the providers and models tables, each in
rowid (insertion) order. -/
structure DB where
  providers : List Provider
  models : List Model
deriving Repr

/-- storage.GetActiveProviders: SELECT ... FROM providers WHERE is_active = true. -/
def DB.GetActiveProviders (db : DB) : List Provider :=
  db.providers.filter (fun p => p.isActive)

/-- storage.GetModelsByProviderID: SELECT ... FROM models WHERE provider_id = ?.
Note there is no is_active filter in the query. -/
def DB.GetModelsByProviderID (db : DB) (providerID : Int) : List Model :=
  db.models.filter (fun m => m.providerID == providerID)

/-- storage.GetProviderByName: QueryRow over WHERE name = ?; the first matching
row, or nil (`none`) when there is no row. -/
def DB.GetProviderByName (db : DB) (name : String) : Option Provider :=
  db.providers.find? (fun p => p.name == name)

/-- The router's StorageInterface: each read may instead fail with a database
error, which the fault-injection theorems exercise. -/
structure Store where
  getActiveProviders : Except String (List Provider)
  getModelsByProviderID : Int → Except String (List Model)
  getProviderByName : String → Except String (Option Provider)

/-- The StorageInterface as implemented by a healthy SQLite store. -/
def dbStore (db : DB) : Store where
  getActiveProviders := .ok db.GetActiveProviders
  getModelsByProviderID := fun pid => .ok (db.GetModelsByProviderID pid)
  getProviderByName := fun n => .ok (db.GetProviderByName n)

/-- Inner loop of Router.determineProviderFromModel: for each active provider,
query its models and return the provider name on the first exact model-id
match; a per-provider storage error is skipped with `continue`. -/
def findProviderLoop (s : Store) (modelID : String) : List Provider → String
  | [] => ""
  | p :: rest =>
    match s.getModelsByProviderID p.id with
    | .error _ => findProviderLoop s modelID rest
    | .ok ms =>
      match ms.find? (fun m => m.modelID == modelID) with
      | some _ => p.name
      | none => findProviderLoop s modelID rest

/-- Router.determineProviderFromModel (internal/router/router.go): empty
model-id or a GetActiveProviders error yield the empty string (NotFound);
otherwise the active providers are scanned in order. -/
def determineProviderFromModel (s : Store) (modelID : String) : String :=
  if modelID == "" then ""
  else
    match s.getActiveProviders with
    | .error _ => ""
    | .ok providers => findProviderLoop s modelID providers

/-- Marshalled models.ErrorResponse, i.e. the body produced by
c.JSON(..., models.ErrorResponse\x7bError: msg\x7d). -/
def errorJson (msg : String) : Json := .obj [("error", .str msg)]

/-- encoding/json escaping of one character inside a string literal (the
characters the embedded documents use; Go additionally \u-escapes HTML
characters, which none of the concrete inputs below contain). -/
def escapeChar (c : Char) : String :=
  if c = '"' then "\\\""
  else if c = '\\' then "\\\\"
  else if c = '\n' then "\\n"
  else if c = '\t' then "\\t"
  else if c = '\r' then "\\r"
  else String.singleton c

/-- encoding/json rendering of a string literal. -/
def renderString (s : String) : String :=
  "\"" ++ String.join (s.data.map escapeChar) ++ "\""

/-- Comma-separated concatenation, as json.Marshal emits list elements. -/
def commaSep : List String → String
  | [] => ""
  | [x] => x
  | x :: rest => x ++ "," ++ commaSep rest

mutual
/-- json.Marshal of a document.  Objects are rendered in field-list order; the
constructions below list fields in the order Go emits them (sorted keys for
map-backed documents, declaration order for struct-backed ones). -/
def renderJson : Json → String
  | .null => "null"
  | .bool true => "true"
  | .bool false => "false"
  | .num n => toString n
  | .str s => renderString s
  | .arr elems => "[" ++ renderJsonElems elems ++ "]"
  | .obj fields => "\x7b" ++ renderJsonFields fields ++ "\x7d"

def renderJsonElems : List Json → String
  | [] => ""
  | [j] => renderJson j
  | j :: rest => renderJson j ++ "," ++ renderJsonElems rest

def renderJsonFields : List (String × Json) → String
  | [] => ""
  | [f] => renderString f.1 ++ ":" ++ renderJson f.2
  | f :: rest => renderString f.1 ++ ":" ++ renderJson f.2 ++ "," ++ renderJsonFields rest
end

/-- models.Message. -/
structure ChatMessage where
  role : String
  content : String
deriving Repr, DecidableEq

/-- models.ChatRequest: note the struct has exactly the fields Model and
Messages; a "stream" member of the request body is an unknown field that
encoding/json silently ignores. -/
structure ChatRequest where
  model : String
  messages : List ChatMessage
deriving Repr, DecidableEq

/-- models.GenerateRequest: Model, Prompt, and the optional Params map
(json tag "parameters,omitempty"). -/
structure GenerateRequest where
  model : String
  prompt : String
  params : Option (List (String × Json))

/-- json.Unmarshal of a document into a Go string field: absent and null leave
the zero value "", a string decodes to itself, anything else is a type error. -/
def decodeStringField (fields : List (String × Json)) (k : String) : Except Unit String :=
  match lookupLast k fields with
  | none => .ok ""
  | some .null => .ok ""
  | some (.str s) => .ok s
  | some _ => .error ()

/-- json.Unmarshal of the request body into struct\x7bModel string\x7d, the
model-detection step of handleChat.  `none` stands for a body that is not
syntactically valid JSON. -/
def unmarshalModelField : Option Json → Except Unit String
  | none => .error ()
  | some .null => .ok ""
  | some (.obj fields) => decodeStringField fields "model"
  | some _ => .error ()

/-- json.Unmarshal of one element of the Messages array into models.Message. -/
def unmarshalMessage : Json → Except Unit ChatMessage
  | .null => .ok { role := "", content := "" }
  | .obj fields => do
    let role ← decodeStringField fields "role"
    let content ← decodeStringField fields "content"
    .ok { role := role, content := content }
  | _ => .error ()

/-- json.Unmarshal of the full request body into models.ChatRequest
(the second unmarshal in handleChat, reached only on the Translate path). -/
def unmarshalChatRequest : Option Json → Except Unit ChatRequest
  | none => .error ()
  | some .null => .ok { model := "", messages := [] }
  | some (.obj fields) => do
    let model ← decodeStringField fields "model"
    let messages ←
      match lookupLast "messages" fields with
      | none => .ok []
      | some .null => .ok []
      | some (.arr elems) => elems.mapM unmarshalMessage
      | some _ => .error ()
    .ok { model := model, messages := messages }
  | some _ => .error ()

/-- gin ShouldBindJSON of the request body into models.GenerateRequest. -/
def bindGenerateRequest : Option Json → Except Unit GenerateRequest
  | none => .error ()
  | some .null => .ok { model := "", prompt := "", params := none }
  | some (.obj fields) => do
    let model ← decodeStringField fields "model"
    let prompt ← decodeStringField fields "prompt"
    let params ←
      match lookupLast "parameters" fields with
      | none => .ok none
      | some .null => .ok none
      | some (.obj ps) => .ok (some ps)
      | some _ => .error ()
    .ok { model := model, prompt := prompt, params := params }
  | some _ => .error ()

/-- json.Marshal of models.GenerateRequest, used by handleGenerate to rebuild
a body for the Ollama passthrough: struct fields in declaration order, the
Params map omitted when nil or empty (omitempty). -/
def marshalGenerateRequest (g : GenerateRequest) : String :=
  "\x7b\"model\":" ++ renderString g.model ++ ",\"prompt\":" ++ renderString g.prompt ++
    (match g.params with
     | none => ""
     | some [] => ""
     | some ps => ",\"parameters\":" ++ renderJson (.obj ps)) ++ "\x7d"

/-- An outbound HTTP request as built by OllamaProvider.ForwardRequest. -/
structure HttpRequest where
  method : String
  url : String
  body : Option String
  headers : List (String × String)
deriving Repr, DecidableEq

/-- An upstream HTTP response (status code and fully read body bytes). -/
structure HttpResponse where
  statusCode : Nat
  body : String
deriving Repr, DecidableEq

/-- The outbound HTTP client: either a transport error or a response. -/
def Transport := HttpRequest → Except String HttpResponse

/-- The request OllamaProvider.ForwardRequest constructs: url is Host ++ path
and the provided headers are set on it. -/
def ollamaForwardReq (host method path : String) (body : Option String)
    (headers : List (String × String)) : HttpRequest :=
  { method := method, url := host ++ path, body := body, headers := headers }

/-- OllamaProvider.ForwardRequest: transmit the exact bytes and headers, return
the response bytes and status unmodified. -/
def ForwardRequest (transport : Transport) (host method path : String)
    (body : Option String) (headers : List (String × String)) :
    Except String (String × Nat) :=
  match transport (ollamaForwardReq host method path body headers) with
  | .error e => .error e
  | .ok resp => .ok (resp.body, resp.statusCode)

/-- provider.CreateProvider returns a non-nil implementation exactly for the
three known provider names. -/
def createProviderKnown (name : String) : Bool :=
  name == "openai" || name == "anthropic" || name == "ollama"

/-- OllamaResponseTransformer.TransformChatResponse: the Ollama-shaped chat
envelope built from the adapter's text.  The wall-clock reading is passed in
as `now`; fields are listed in the sorted order json.Marshal emits for a map. -/
def TransformChatResponse (content modelID now : String) : Json :=
  .obj [("created_at", .str now), ("done", .bool true),
        ("message", .obj [("content", .str content), ("role", .str "assistant")]),
        ("model", .str modelID)]

/-- OllamaResponseTransformer.TransformGenerateResponse: the Ollama-shaped
generate envelope. -/
def TransformGenerateResponse (content modelID now : String) : Json :=
  .obj [("created_at", .str now), ("done", .bool true),
        ("model", .str modelID), ("response", .str content)]

/-- The collaborators a request handler consumes: the registry store, the
outbound HTTP client, the adapters' Chat capability (provider name, model id,
(role, content) messages), each provider implementation's GetModels catalog
fetch, and the injected clock readings. -/
structure RouterEnv where
  store : Store
  transport : Transport
  chat : String → String → List (String × String) → Except String String
  fetchModels : Provider → Except String (List Model)
  nowRFC3339 : String
  nowUnix : Int

/-- An inbound request as the handlers see it: the method, one value per
header key (the Go code reads values[0]), the raw body bytes, and the result
of syntactically parsing those bytes as JSON (`none` = malformed JSON). -/
structure InboundRequest where
  method : String
  headers : List (String × String)
  rawBody : String
  parsedBody : Option Json

/-- A reply body: either a document marshalled by the handler (c.JSON, or
c.Data over freshly marshalled bytes), or raw relayed bytes (c.Data over an
upstream body). -/
inductive ReplyBody where
  | jsonVal (j : Json) : ReplyBody
  | raw (bytes : String) : ReplyBody

/-- The reply a handler emits. -/
structure HttpReply where
  status : Nat
  body : ReplyBody

/-- One upstream call made while handling a request. -/
inductive Call where
  | chatCall (providerName modelID : String) (messages : List (String × String)) : Call
  | httpCall (r : HttpRequest) : Call

/-- Router.forwardOllamaRequestWithBody: forward the given body with the
inbound headers minus Content-Length; relay the upstream status and bytes, or
report a transport error as a 500. -/
def forwardOllamaRequestWithBody (env : RouterEnv) (req : InboundRequest)
    (prov : Provider) (path : String) (body : String) : HttpReply × List Call :=
  let headers := req.headers.filter (fun h => h.1 != "Content-Length")
  match ForwardRequest env.transport prov.host req.method path (some body) headers with
  | .error e =>
    ({ status := 500, body := .jsonVal (errorJson e) },
     [.httpCall (ollamaForwardReq prov.host req.method path (some body) headers)])
  | .ok (respBody, statusCode) =>
    ({ status := statusCode, body := .raw respBody },
     [.httpCall (ollamaForwardReq prov.host req.method path (some body) headers)])

/-- Router.forwardOllamaRequest: forward the current request body (`body` is
what c.Request.Body holds at the call site) with the inbound headers copied
unfiltered; relay the upstream status and bytes. -/
def forwardOllamaRequest (env : RouterEnv) (req : InboundRequest)
    (prov : Provider) (path : String) (body : String) : HttpReply × List Call :=
  match ForwardRequest env.transport prov.host req.method path (some body) req.headers with
  | .error e =>
    ({ status := 500, body := .jsonVal (errorJson e) },
     [.httpCall (ollamaForwardReq prov.host req.method path (some body) req.headers)])
  | .ok (respBody, statusCode) =>
    ({ status := statusCode, body := .raw respBody },
     [.httpCall (ollamaForwardReq prov.host req.method path (some body) req.headers)])

/-- Router.handleChat (internal/router/router.go): extract the model field,
resolve the provider, and either relay to Ollama byte-for-byte or translate
through the adapter's Chat and the response transformer. -/
def handleChat (env : RouterEnv) (req : InboundRequest) : HttpReply × List Call :=
  match unmarshalModelField req.parsedBody with
  | .error _ =>
    ({ status := 400, body := .jsonVal (errorJson "Invalid request body: missing model field") }, [])
  | .ok model =>
    let providerName := determineProviderFromModel env.store model
    if providerName == "" then
      ({ status := 400, body := .jsonVal (errorJson ("Unsupported model: " ++ model)) }, [])
    else
      match env.store.getProviderByName providerName with
      | .error _ =>
        ({ status := 500, body := .jsonVal (errorJson ("Provider not found for model: " ++ model)) }, [])
      | .ok none =>
        ({ status := 500, body := .jsonVal (errorJson ("Provider not found for model: " ++ model)) }, [])
      | .ok (some prov) =>
        if providerName == "ollama" then
          forwardOllamaRequestWithBody env req prov "/api/chat" req.rawBody
        else
          match unmarshalChatRequest req.parsedBody with
          | .error _ =>
            ({ status := 400, body := .jsonVal (errorJson "Invalid request body") }, [])
          | .ok chatReq =>
            if !createProviderKnown prov.name then
              ({ status := 400, body := .jsonVal (errorJson ("Unsupported provider: " ++ providerName)) }, [])
            else
              let msgs := chatReq.messages.map (fun m => (m.role, m.content))
              match env.chat prov.name chatReq.model msgs with
              | .error e =>
                ({ status := 500, body := .jsonVal (errorJson e) },
                 [.chatCall prov.name chatReq.model msgs])
              | .ok content =>
                ({ status := 200,
                   body := .jsonVal (TransformChatResponse content chatReq.model env.nowRFC3339) },
                 [.chatCall prov.name chatReq.model msgs])

/-- Router.handleGenerate: bind the body, resolve the provider; the Ollama
branch re-serializes the bound struct (json.Marshal(genReq)) and forwards that
via forwardOllamaRequest; other providers go through Chat with a single user
message holding the prompt.  The text gin appends to the bind-error reply is
abstracted by the unit error. -/
def handleGenerate (env : RouterEnv) (req : InboundRequest) : HttpReply × List Call :=
  match bindGenerateRequest req.parsedBody with
  | .error _ =>
    ({ status := 400, body := .jsonVal (errorJson "Invalid request body: bind error") }, [])
  | .ok genReq =>
    let providerName := determineProviderFromModel env.store genReq.model
    if providerName == "" then
      ({ status := 400, body := .jsonVal (errorJson ("Unsupported model: " ++ genReq.model)) }, [])
    else
      match env.store.getProviderByName providerName with
      | .error _ =>
        ({ status := 500, body := .jsonVal (errorJson ("Provider not found for model: " ++ genReq.model)) }, [])
      | .ok none =>
        ({ status := 500, body := .jsonVal (errorJson ("Provider not found for model: " ++ genReq.model)) }, [])
      | .ok (some prov) =>
        if providerName == "ollama" then
          forwardOllamaRequest env req prov "/api/generate" (marshalGenerateRequest genReq)
        else
          if !createProviderKnown prov.name then
            ({ status := 400, body := .jsonVal (errorJson ("Unsupported provider: " ++ providerName)) }, [])
          else
            let msgs := [("user", genReq.prompt)]
            match env.chat prov.name genReq.model msgs with
            | .error e =>
              ({ status := 500, body := .jsonVal (errorJson e) },
               [.chatCall prov.name genReq.model msgs])
            | .ok content =>
              ({ status := 200,
                 body := .jsonVal (TransformGenerateResponse content genReq.model env.nowRFC3339) },
               [.chatCall prov.name genReq.model msgs])

/-- models.ModelEntry, one row of the /api/v1/models listing. -/
structure ModelEntry where
  id : String
  object : String
  created : Int
  ownedBy : String
deriving Repr, DecidableEq

/-- models.TagEntry, one row of the /api/tags listing. -/
structure TagEntry where
  name : String
  modifiedAt : String
  size : Int
  digest : String
deriving Repr, DecidableEq

/-- The shared shape of the inner loops of listModels and listTags: walk a
model list, skip inactive records when `checkActive` (the local-DB phase
checks model.IsActive, the fetched phase does not), skip ids already in the
processedModels set, and append an entry plus the id otherwise. -/
def dedupAppend (mk : Model → α) (checkActive : Bool) :
    List Model → List α → List String → List α × List String
  | [], entries, seen => (entries, seen)
  | m :: rest, entries, seen =>
    if checkActive && !m.isActive then
      dedupAppend mk checkActive rest entries seen
    else if seen.contains m.modelID then
      dedupAppend mk checkActive rest entries seen
    else
      dedupAppend mk checkActive rest (entries ++ [mk m]) (seen ++ [m.modelID])

/-- listModels' entry constructor: id is the model id, created the clock
reading, owned_by the provider name. -/
def mkModelEntry (provName : String) (nowUnix : Int) (m : Model) : ModelEntry :=
  { id := m.modelID, object := "model", created := nowUnix, ownedBy := provName }

/-- listTags' entry constructor: name is the model id; size and digest are
placeholders. -/
def mkTagEntry (nowRFC3339 : String) (m : Model) : TagEntry :=
  { name := m.modelID, modifiedAt := nowRFC3339, size := 0, digest := "" }

/-- Outer provider loop of Router.listModels: skip providers with no
implementation, then run the fetched-catalog phase (no active check) and the
local-DB phase (active check), each skipped on error. -/
def listModelsLoop (env : RouterEnv) :
    List Provider → List ModelEntry → List String → List ModelEntry
  | [], entries, _ => entries
  | p :: rest, entries, seen =>
    if !createProviderKnown p.name then
      listModelsLoop env rest entries seen
    else
      let r1 :=
        match env.fetchModels p with
        | .error _ => (entries, seen)
        | .ok fetched => dedupAppend (mkModelEntry p.name env.nowUnix) false fetched entries seen
      let r2 :=
        match env.store.getModelsByProviderID p.id with
        | .error _ => r1
        | .ok localModels => dedupAppend (mkModelEntry p.name env.nowUnix) true localModels r1.1 r1.2
      listModelsLoop env rest r2.1 r2.2

/-- Outer provider loop of Router.listTags, same structure as listModelsLoop. -/
def listTagsLoop (env : RouterEnv) :
    List Provider → List TagEntry → List String → List TagEntry
  | [], entries, _ => entries
  | p :: rest, entries, seen =>
    if !createProviderKnown p.name then
      listTagsLoop env rest entries seen
    else
      let r1 :=
        match env.fetchModels p with
        | .error _ => (entries, seen)
        | .ok fetched => dedupAppend (mkTagEntry env.nowRFC3339) false fetched entries seen
      let r2 :=
        match env.store.getModelsByProviderID p.id with
        | .error _ => r1
        | .ok localModels => dedupAppend (mkTagEntry env.nowRFC3339) true localModels r1.1 r1.2
      listTagsLoop env rest r2.1 r2.2

/-- Router.listModels: 500 on a provider-read failure, otherwise the
aggregated, deduplicated entries inside the list envelope. -/
def listModels (env : RouterEnv) : HttpReply :=
  match env.store.getActiveProviders with
  | .error _ => { status := 500, body := .jsonVal (errorJson "Failed to retrieve providers") }
  | .ok providers =>
    let entries := listModelsLoop env providers [] []
    { status := 200,
      body := .jsonVal (.obj [("object", .str "list"),
        ("data", .arr (entries.map (fun e => .obj [("id", .str e.id),
          ("object", .str e.object), ("created", .num e.created),
          ("owned_by", .str e.ownedBy)])))]) }

/-- Router.listTags: 500 on a provider-read failure, otherwise the aggregated,
deduplicated tag entries. -/
def listTags (env : RouterEnv) : HttpReply :=
  match env.store.getActiveProviders with
  | .error _ => { status := 500, body := .jsonVal (errorJson "Failed to retrieve providers") }
  | .ok providers =>
    let entries := listTagsLoop env providers [] []
    { status := 200,
      body := .jsonVal (.obj [("models", .arr (entries.map (fun e =>
        .obj [("name", .str e.name), ("modified_at", .str e.modifiedAt),
          ("size", .num e.size), ("digest", .str e.digest)])))]) }

/-- The fields contributed by an optional "stream" member. -/
def svTail : Option Json → List (String × Json)
  | none => []
  | some v => [("stream", v)]

/-- Replace the top-level "stream" member of a request document: remove any
existing "stream" field and, when `s` is given, append it with value `s`.
Non-object documents are returned unchanged. -/
def streamVariant (j : Json) (s : Option Json) : Json :=
  match j with
  | .obj fields => .obj (fields.filter (fun f => f.1 != "stream") ++ svTail s)
  | other => other

/-! Concrete fixtures used by the closed evaluations below. -/

/-- A registry with an OpenAI provider (owning gpt-3.5-turbo and demo-1) and
an Ollama provider (owning llama2), all rows active. -/
def demoDB : DB :=
  { providers :=
      [{ id := 1, name := "openai", apiKey := "sk-demo", host := "https://api.openai.com", isActive := true },
       { id := 2, name := "ollama", apiKey := "", host := "http://localhost:11434", isActive := true }],
    models :=
      [{ id := 1, providerID := 1, name := "GPT 3.5", modelID := "gpt-3.5-turbo", isActive := true },
       { id := 2, providerID := 1, name := "Demo", modelID := "demo-1", isActive := true },
       { id := 3, providerID := 2, name := "llama2", modelID := "llama2", isActive := true }] }

/-- A healthy environment over demoDB whose adapters answer "Hello" and whose
upstream transport answers 200 with fixed bytes. -/
def demoEnv : RouterEnv :=
  { store := dbStore demoDB,
    transport := fun _ => .ok { statusCode := 200, body := "upstream-bytes" },
    chat := fun _ _ _ => .ok "Hello",
    fetchModels := fun _ => .error "connection refused",
    nowRFC3339 := "2026-01-01T00:00:00Z",
    nowUnix := 1767225600 }

/-- demoEnv with a failing providers table: every storage read reports a
database error. -/
def failingStoreEnv : RouterEnv :=
  { demoEnv with
    store :=
      { getActiveProviders := .error "database is locked",
        getModelsByProviderID := fun _ => .error "database is locked",
        getProviderByName := fun _ => .error "database is locked" } }

/-- A registry whose only model row is inactive while its provider is active. -/
def c1db : DB :=
  { providers :=
      [{ id := 1, name := "openai", apiKey := "k", host := "https://api.openai.com", isActive := true }],
    models :=
      [{ id := 1, providerID := 1, name := "Retired", modelID := "retired-model", isActive := false }] }

/-- A Translate-path chat request for demo-1 saying "hi". -/
def demoChatReq : InboundRequest :=
  { method := "POST",
    headers := [("Content-Type", "application/json"), ("Content-Length", "71")],
    rawBody := "\x7b\"model\":\"demo-1\",\"messages\":[\x7b\"role\":\"user\",\"content\":\"hi\"\x7d]\x7d",
    parsedBody := some (.obj [("model", .str "demo-1"),
      ("messages", .arr [.obj [("role", .str "user"), ("content", .str "hi")]])]) }

/-- A chat request for the Ollama-owned llama2 model; the raw bytes carry
extra whitespace so that byte identity is observable. -/
def ollamaChatReq : InboundRequest :=
  { method := "POST",
    headers := [("Content-Type", "application/json"), ("Content-Length", "76")],
    rawBody := "\x7b\"model\": \"llama2\", \"messages\": [\x7b\"role\": \"user\", \"content\": \"hi\"\x7d]\x7d",
    parsedBody := some (.obj [("model", .str "llama2"),
      ("messages", .arr [.obj [("role", .str "user"), ("content", .str "hi")]])]) }

/-- An /api/generate request for llama2; the raw bytes contain spaces after
the colons, so they differ from any re-marshalling. -/
def ollamaGenReq : InboundRequest :=
  { method := "POST",
    headers := [("Content-Type", "application/json"), ("Content-Length", "38")],
    rawBody := "\x7b\"model\": \"llama2\", \"prompt\": \"hi\"\x7d",
    parsedBody := some (.obj [("model", .str "llama2"), ("prompt", .str "hi")]) }

/-- A chat request for a model no provider owns. -/
def unknownModelReq : InboundRequest :=
  { method := "POST",
    headers := [("Content-Type", "application/json")],
    rawBody := "\x7b\"model\":\"unknown-xyz\",\"messages\":[]\x7d",
    parsedBody := some (.obj [("model", .str "unknown-xyz"), ("messages", .arr [])]) }

/-- A syntactically valid chat body with no model field at all. -/
def noModelReq : InboundRequest :=
  { method := "POST",
    headers := [("Content-Type", "application/json")],
    rawBody := "\x7b\"messages\":[\x7b\"role\":\"user\",\"content\":\"hi\"\x7d]\x7d",
    parsedBody := some (.obj [("messages", .arr [.obj [("role", .str "user"), ("content", .str "hi")]])]) }

/-- The spec's asserted shape for the Translate-path chat reply: an OpenAI
style envelope whose choices[0].message.content is the adapter text, whose
choices[0].finish_reason is "stop", whose usage.total_tokens is 0, and whose
model is the request model.  Stated from the spec's words, to be compared
against what the code emits. -/
def specChatEnvelopeShape (j : Json) (t m : String) : Bool :=
  (match j.getField "choices" with
   | some (.arr (c0 :: _)) =>
     (match c0.getField "message" with
      | some msg =>
        (match msg.getField "content" with
         | some (.str s) => s == t
         | _ => false)
      | none => false) &&
     (match c0.getField "finish_reason" with
      | some (.str s) => s == "stop"
      | _ => false)
   | _ => false) &&
  (match j.getField "usage" with
   | some u =>
     (match u.getField "total_tokens" with
      | some (.num n) => n == 0
      | _ => false)
   | _ => false) &&
  (match j.getField "model" with
   | some (.str s) => s == m
   | _ => false)

/-! Theorems. -/

/-- Over a healthy store, the provider scan returns the name of the first
provider in the list owning any record matching the model id, active or not. -/
theorem findProviderLoop_dbStore (db : DB) (mid : String) (ps : List Provider) :
    findProviderLoop (dbStore db) mid ps =
      match ps.find? (fun p => (db.GetModelsByProviderID p.id).any (fun m => m.modelID == mid)) with
      | some p => p.name
      | none => "" := by
  induction ps with
  | nil => rfl
  | cons p rest ih =>
    show (match (db.GetModelsByProviderID p.id).find? (fun m => m.modelID == mid) with
      | some _ => p.name
      | none => findProviderLoop (dbStore db) mid rest) = _
    cases h : (db.GetModelsByProviderID p.id).find? (fun m => m.modelID == mid) with
    | some mf =>
      have hp := List.find?_some h
      have hany : (db.GetModelsByProviderID p.id).any (fun m => m.modelID == mid) = true :=
        List.any_eq_true.mpr ⟨mf, List.mem_of_find?_eq_some h, hp⟩
      simp only [List.find?, hany]
    | none =>
      have hany : (db.GetModelsByProviderID p.id).any (fun m => m.modelID == mid) = false := by
        rw [Bool.eq_false_iff]
        intro hc
        obtain ⟨m, hm, hpm⟩ := List.any_eq_true.mp hc
        have := List.find?_eq_none.mp h m hm
        exact this hpm
      simp only [List.find?, hany]
      exact ih

/-- C1: determineProviderFromModel over a healthy store returns NotFound for
the empty model id, and otherwise the name of the first ACTIVE provider (in
registry insertion order) owning ANY model record — active or inactive — that
matches the id exactly, NotFound when there is none.  (Amended from the claim:
the record's own active flag is not consulted.) -/
theorem determineProviderFromModel_characterization (db : DB) (mid : String) :
    determineProviderFromModel (dbStore db) mid =
      if mid = "" then ""
      else
        match db.GetActiveProviders.find?
            (fun p => (db.GetModelsByProviderID p.id).any (fun m => m.modelID == mid)) with
        | some p => p.name
        | none => "" := by
  unfold determineProviderFromModel
  by_cases h : mid = ""
  · rw [if_pos h, if_pos (beq_iff_eq.mpr h)]
  · rw [if_neg h, if_neg (by simpa using h)]
    show findProviderLoop (dbStore db) mid db.GetActiveProviders = _
    exact findProviderLoop_dbStore db mid db.GetActiveProviders

/-- C1 counterexample: "retired-model" occurs only in an inactive ModelRecord,
so by the claim resolution should return NotFound; the code returns the owning
provider because GetModelsByProviderID does not filter on is_active. -/
theorem c1_inactive_record_still_resolves :
    c1db.models.all (fun m => !m.isActive) = true ∧
    determineProviderFromModel (dbStore c1db) "retired-model" = "openai" ∧
    "openai" ≠ "" :=
  ⟨rfl, rfl, by decide⟩

/-- C2: on a successful Translate-path adapter Chat call returning text t, the
chat endpoint emits 200 with the OLLAMA chat envelope: message.content = t,
message.role = "assistant", model = the request model, done = true — and that
envelope has no choices and no usage field.  (Amended from the claim: the code
does not produce the OpenAI-style choices/usage envelope.) -/
theorem c2_translate_chat_reply (env : RouterEnv) (req : InboundRequest)
    (m p : String) (prov : Provider) (chatReq : ChatRequest) (t : String)
    (h2 : unmarshalModelField req.parsedBody = .ok m)
    (h3 : determineProviderFromModel env.store m = p)
    (hp1 : p ≠ "") (hp2 : p ≠ "ollama")
    (h4 : env.store.getProviderByName p = .ok (some prov))
    (h5 : unmarshalChatRequest req.parsedBody = .ok chatReq)
    (h6 : createProviderKnown prov.name = true)
    (h7 : env.chat prov.name chatReq.model
            (chatReq.messages.map (fun msg => (msg.role, msg.content))) = .ok t) :
    handleChat env req =
      ({ status := 200,
         body := .jsonVal (TransformChatResponse t chatReq.model env.nowRFC3339) },
       [.chatCall prov.name chatReq.model
          (chatReq.messages.map (fun msg => (msg.role, msg.content)))]) ∧
    (TransformChatResponse t chatReq.model env.nowRFC3339).getField "message" =
      some (.obj [("content", .str t), ("role", .str "assistant")]) ∧
    (TransformChatResponse t chatReq.model env.nowRFC3339).getField "model" = some (.str chatReq.model) ∧
    (TransformChatResponse t chatReq.model env.nowRFC3339).getField "done" = some (.bool true) ∧
    (TransformChatResponse t chatReq.model env.nowRFC3339).getField "choices" = none ∧
    (TransformChatResponse t chatReq.model env.nowRFC3339).getField "usage" = none := by
  have e1 : (p == "") = false := beq_eq_false_iff_ne.mpr hp1
  have e2 : (p == "ollama") = false := beq_eq_false_iff_ne.mpr hp2
  refine ⟨?_, rfl, rfl, rfl, rfl, rfl⟩
  simp only [handleChat, h2, h3, e1, e2, h4, h5, h6, h7, Bool.false_eq_true, if_false,
    Bool.not_true, Bool.false_eq_true]

/-- C2 witness: the demo-1 request through the healthy demo environment. -/
theorem c2_translate_chat_reply_witness :
    handleChat demoEnv demoChatReq =
      ({ status := 200,
         body := .jsonVal (TransformChatResponse "Hello" "demo-1" "2026-01-01T00:00:00Z") },
       [.chatCall "openai" "demo-1" [("user", "hi")]]) := by
  have h := c2_translate_chat_reply demoEnv demoChatReq "demo-1" "openai"
    { id := 1, name := "openai", apiKey := "sk-demo", host := "https://api.openai.com", isActive := true }
    { model := "demo-1", messages := [{ role := "user", content := "hi" }] } "Hello"
    rfl rfl (by decide) (by decide) rfl rfl rfl rfl
  exact h.1

/-- C2 counterexample: for the spec's own scenario (text "Hello", model
"demo-1") the emitted 200 body is the Ollama envelope, which does not satisfy
the claimed choices/finish_reason/usage shape. -/
theorem c2_reply_lacks_choices_shape :
    handleChat demoEnv demoChatReq =
      ({ status := 200,
         body := .jsonVal (TransformChatResponse "Hello" "demo-1" "2026-01-01T00:00:00Z") },
       [.chatCall "openai" "demo-1" [("user", "hi")]]) ∧
    specChatEnvelopeShape (TransformChatResponse "Hello" "demo-1" "2026-01-01T00:00:00Z")
      "Hello" "demo-1" = false :=
  ⟨rfl, rfl⟩

/-- C3: storage failures during provider resolution are NOT surfaced as a 5xx:
a GetActiveProviders error is folded into NotFound, so the chat endpoint
reports the 400 "Unsupported model" client error; and a per-provider
GetModelsByProviderID error merely skips that provider in the scan.  (Amended
from the claim, which asserted a distinct terminal server error.) -/
theorem c3_storage_failure_folded_into_notfound :
    (∀ (env : RouterEnv) (req : InboundRequest) (e m : String),
      env.store.getActiveProviders = .error e →
      unmarshalModelField req.parsedBody = .ok m →
      handleChat env req =
        ({ status := 400, body := .jsonVal (errorJson ("Unsupported model: " ++ m)) }, [])) ∧
    (∀ (s : Store) (mid : String) (p : Provider) (rest : List Provider) (e : String),
      s.getModelsByProviderID p.id = .error e →
      findProviderLoop s mid (p :: rest) = findProviderLoop s mid rest) := by
  constructor
  · intro env req e m h1 h2
    have hd : determineProviderFromModel env.store m = "" := by
      unfold determineProviderFromModel
      rw [h1]
      cases m == "" <;> simp
    simp [handleChat, h2, hd]
  · intro s mid p rest e h
    simp only [findProviderLoop, h]

/-- C3 witness for the amended theorem: the failing-store environment turns
the demo-1 request into a 400 Unsupported-model reply. -/
theorem c3_storage_failure_witness :
    handleChat failingStoreEnv demoChatReq =
      ({ status := 400, body := .jsonVal (errorJson "Unsupported model: demo-1") }, []) :=
  c3_storage_failure_folded_into_notfound.1 failingStoreEnv demoChatReq
    "database is locked" "demo-1" rfl rfl

/-- C3 counterexample: with the providers table failing, the chat endpoint
reports status 400 with exactly the Unsupported-model client error — not a
5xx — contradicting the claim. -/
theorem c3_storage_failure_is_400 :
    failingStoreEnv.store.getActiveProviders = .error "database is locked" ∧
    (handleChat failingStoreEnv demoChatReq).1.status = 400 ∧
    (handleChat failingStoreEnv demoChatReq).1.body =
      .jsonVal (errorJson "Unsupported model: demo-1") ∧
    ¬ 500 ≤ (handleChat failingStoreEnv demoChatReq).1.status :=
  ⟨rfl, rfl, rfl, by decide⟩

/-- C4: when a chat request resolves to the ollama passthrough provider and
the upstream transport answers, the emitted status code equals the upstream
status code and the emitted body is byte-identical to the upstream body. -/
theorem c4_ollama_chat_relays_upstream (env : RouterEnv) (req : InboundRequest)
    (m : String) (prov : Provider) (resp : HttpResponse)
    (h2 : unmarshalModelField req.parsedBody = .ok m)
    (h3 : determineProviderFromModel env.store m = "ollama")
    (h4 : env.store.getProviderByName "ollama" = .ok (some prov))
    (h5 : env.transport (ollamaForwardReq prov.host req.method "/api/chat" (some req.rawBody)
            (req.headers.filter (fun h => h.1 != "Content-Length"))) = .ok resp) :
    handleChat env req =
      ({ status := resp.statusCode, body := .raw resp.body },
       [.httpCall (ollamaForwardReq prov.host req.method "/api/chat" (some req.rawBody)
          (req.headers.filter (fun h => h.1 != "Content-Length")))]) := by
  simp [handleChat, h2, h3, h4, forwardOllamaRequestWithBody, ForwardRequest, h5]

/-- C4 witness: the llama2 request relayed through the demo transport. -/
theorem c4_ollama_chat_relays_upstream_witness :
    handleChat demoEnv ollamaChatReq =
      ({ status := 200, body := .raw "upstream-bytes" },
       [.httpCall (ollamaForwardReq "http://localhost:11434" "POST" "/api/chat"
          (some ollamaChatReq.rawBody)
          (ollamaChatReq.headers.filter (fun h => h.1 != "Content-Length")))]) :=
  c4_ollama_chat_relays_upstream demoEnv ollamaChatReq "llama2"
    { id := 2, name := "ollama", apiKey := "", host := "http://localhost:11434", isActive := true }
    { statusCode := 200, body := "upstream-bytes" } rfl rfl rfl rfl

/-- C6: a request whose model field is a non-empty string resolving to no
provider gets a 400 reply whose body is exactly
\x7b"error":"Unsupported model: <model>"\x7d and makes no upstream call. -/
theorem c6_unsupported_model_400 (env : RouterEnv) (req : InboundRequest) (m : String)
    (h2 : unmarshalModelField req.parsedBody = .ok m)
    (_hm : m ≠ "")
    (h3 : determineProviderFromModel env.store m = "") :
    handleChat env req =
      ({ status := 400, body := .jsonVal (errorJson ("Unsupported model: " ++ m)) }, []) := by
  simp [handleChat, h2, h3]

/-- C6 witness: model "unknown-xyz" yields the 400 body
\x7b"error":"Unsupported model: unknown-xyz"\x7d. -/
theorem c6_unsupported_model_400_witness :
    handleChat demoEnv unknownModelReq =
      ({ status := 400, body := .jsonVal (errorJson "Unsupported model: unknown-xyz") }, []) :=
  c6_unsupported_model_400 demoEnv unknownModelReq "unknown-xyz" rfl (by decide) rfl

/-- C7: reading back the generate envelope produced by
TransformGenerateResponse yields response = t, model = m, done = true, for
every content string and model id. -/
theorem c7_generate_envelope_roundtrip (t m now : String) :
    (TransformGenerateResponse t m now).getField "response" = some (.str t) ∧
    (TransformGenerateResponse t m now).getField "model" = some (.str m) ∧
    (TransformGenerateResponse t m now).getField "done" = some (.bool true) :=
  ⟨rfl, rfl, rfl⟩

/-- C5: on the /api/chat PassThrough dispatch the bytes transmitted upstream
are the original inbound body bytes and the forwarded header set omits
Content-Length; but on the /api/generate PassThrough dispatch the transmitted
bytes are json.Marshal of the re-bound GenerateRequest — not the inbound
bytes — and the inbound headers are forwarded unfiltered.  (Amended from the
claim, which asserted original bytes and Content-Length filtering on every
PassThrough dispatch.) -/
theorem c5_passthrough_transmitted_bytes :
    (∀ (env : RouterEnv) (req : InboundRequest) (m : String) (prov : Provider),
      unmarshalModelField req.parsedBody = .ok m →
      determineProviderFromModel env.store m = "ollama" →
      env.store.getProviderByName "ollama" = .ok (some prov) →
      (handleChat env req).2 =
        [.httpCall (ollamaForwardReq prov.host req.method "/api/chat" (some req.rawBody)
          (req.headers.filter (fun h => h.1 != "Content-Length")))] ∧
      ∀ v, ("Content-Length", v) ∉ req.headers.filter (fun h => h.1 != "Content-Length")) ∧
    (∀ (env : RouterEnv) (req : InboundRequest) (genReq : GenerateRequest) (prov : Provider),
      bindGenerateRequest req.parsedBody = .ok genReq →
      determineProviderFromModel env.store genReq.model = "ollama" →
      env.store.getProviderByName "ollama" = .ok (some prov) →
      (handleGenerate env req).2 =
        [.httpCall (ollamaForwardReq prov.host req.method "/api/generate"
          (some (marshalGenerateRequest genReq)) req.headers)]) := by
  constructor
  · intro env req m prov h2 h3 h4
    constructor
    · simp only [handleChat, h2, h3, h4, forwardOllamaRequestWithBody]
      cases ForwardRequest env.transport prov.host req.method "/api/chat" (some req.rawBody)
          (req.headers.filter (fun h => h.1 != "Content-Length")) <;> rfl
    · intro v hv
      have := (List.mem_filter.mp hv).2
      simp at this
  · intro env req genReq prov hb h3 h4
    simp only [handleGenerate, hb, h3, h4, forwardOllamaRequest]
    cases ForwardRequest env.transport prov.host req.method "/api/generate"
        (some (marshalGenerateRequest genReq)) req.headers <;> rfl

/-- C5 witness for the amended theorem: both passthrough dispatches through
the demo environment, showing the bytes each one transmits. -/
theorem c5_passthrough_transmitted_bytes_witness :
    (handleChat demoEnv ollamaChatReq).2 =
      [.httpCall (ollamaForwardReq "http://localhost:11434" "POST" "/api/chat"
        (some ollamaChatReq.rawBody)
        (ollamaChatReq.headers.filter (fun h => h.1 != "Content-Length")))] ∧
    (handleGenerate demoEnv ollamaGenReq).2 =
      [.httpCall (ollamaForwardReq "http://localhost:11434" "POST" "/api/generate"
        (some (marshalGenerateRequest { model := "llama2", prompt := "hi", params := none }))
        ollamaGenReq.headers)] :=
  ⟨(c5_passthrough_transmitted_bytes.1 demoEnv ollamaChatReq "llama2"
      { id := 2, name := "ollama", apiKey := "", host := "http://localhost:11434", isActive := true }
      rfl rfl rfl).1,
   c5_passthrough_transmitted_bytes.2 demoEnv ollamaGenReq
      { model := "llama2", prompt := "hi", params := none }
      { id := 2, name := "ollama", apiKey := "", host := "http://localhost:11434", isActive := true }
      rfl rfl rfl⟩

/-- C5 counterexample: for an /api/generate passthrough whose inbound bytes
contain spaces, the transmitted bytes are the re-marshalled struct and so
differ from the inbound bytes, and the forwarded header set still contains
Content-Length — contradicting both halves of the claim. -/
theorem c5_generate_passthrough_rewrites_body :
    (handleGenerate demoEnv ollamaGenReq).2 =
      [.httpCall { method := "POST", url := "http://localhost:11434/api/generate",
                   body := some "\x7b\"model\":\"llama2\",\"prompt\":\"hi\"\x7d",
                   headers := [("Content-Type", "application/json"),
                               ("Content-Length", "38")] }] ∧
    ollamaGenReq.rawBody ≠ "\x7b\"model\":\"llama2\",\"prompt\":\"hi\"\x7d" ∧
    ("Content-Length", "38") ∈
      [(("Content-Type" : String), ("application/json" : String)), ("Content-Length", "38")] :=
  ⟨rfl, by decide, by decide⟩

/-- Last-wins lookup over an appended list prefers the suffix. -/
theorem lookupLast_append (k : String) (l1 l2 : List (String × Json)) :
    lookupLast k (l1 ++ l2) =
      match lookupLast k l2 with
      | some v => some v
      | none => lookupLast k l1 := by
  induction l1 with
  | nil =>
    simp only [List.nil_append]
    cases h : lookupLast k l2 <;> rfl
  | cons f rest ih =>
    simp only [List.cons_append, lookupLast, List.append_eq]
    rw [ih]
    cases h2 : lookupLast k l2 <;> cases hr : lookupLast k rest <;> rfl

/-- Removing fields with a different key does not change a last-wins lookup. -/
theorem lookupLast_filter_ne (k ks : String) (hk : k ≠ ks) (l : List (String × Json)) :
    lookupLast k (l.filter (fun f => f.1 != ks)) = lookupLast k l := by
  induction l with
  | nil => rfl
  | cons f rest ih =>
    by_cases hf : f.1 = ks
    · have hp : (f.1 != ks) = false := by simp [hf]
      have hfk : (f.1 == k) = false :=
        beq_eq_false_iff_ne.mpr (by rw [hf]; exact fun h => hk h.symm)
      simp only [List.filter_cons, hp, Bool.false_eq_true, if_false, lookupLast, hfk]
      rw [ih]
      cases hr : lookupLast k rest <;> rfl
    · have hp : (f.1 != ks) = true := by simp [hf]
      simp only [List.filter_cons, hp, if_true, lookupLast]
      rw [ih]

/-- The appended "stream" tail never answers a lookup for another key. -/
theorem lookupLast_svTail (k : String) (hk : k ≠ "stream") (s : Option Json) :
    lookupLast k (svTail s) = none := by
  cases s with
  | none => rfl
  | some v =>
    have hs : (("stream" : String) == k) = false :=
      beq_eq_false_iff_ne.mpr (fun h => hk h.symm)
    simp only [svTail, lookupLast, hs, Bool.false_eq_true, if_false]

/-- Lookups for keys other than "stream" see through a stream variant. -/
theorem lookupLast_streamVariant (k : String) (hk : k ≠ "stream")
    (fields : List (String × Json)) (s : Option Json) :
    lookupLast k (fields.filter (fun f => f.1 != "stream") ++ svTail s) =
      lookupLast k fields := by
  rw [lookupLast_append, lookupLast_svTail k hk, lookupLast_filter_ne k "stream" hk]

/-- The model-detection unmarshal is blind to the "stream" member. -/
theorem unmarshalModelField_streamVariant (j : Json) (s : Option Json) :
    unmarshalModelField (some (streamVariant j s)) = unmarshalModelField (some j) := by
  cases j with
  | obj fields =>
    simp only [streamVariant, unmarshalModelField, decodeStringField,
      lookupLast_streamVariant "model" (by decide)]
  | null => rfl
  | bool b => rfl
  | num n => rfl
  | str t => rfl
  | arr es => rfl

/-- The full ChatRequest unmarshal is blind to the "stream" member: the struct
has no Stream field, so encoding/json ignores it as an unknown key. -/
theorem unmarshalChatRequest_streamVariant (j : Json) (s : Option Json) :
    unmarshalChatRequest (some (streamVariant j s)) = unmarshalChatRequest (some j) := by
  cases j with
  | obj fields =>
    simp only [streamVariant, unmarshalChatRequest, decodeStringField,
      lookupLast_streamVariant "model" (by decide),
      lookupLast_streamVariant "messages" (by decide)]
  | null => rfl
  | bool b => rfl
  | num n => rfl
  | str t => rfl
  | arr es => rfl

/-- C8: two chat requests that differ only in the value or presence of the
top-level "stream" member (and hence in their raw bytes) and whose model does
not resolve to the ollama passthrough produce identical upstream adapter
calls and identical replies: the Translate path never honors stream. -/
theorem c8_stream_never_honored_on_translate (env : RouterEnv)
    (method : String) (headers : List (String × String)) (raw1 raw2 : String)
    (j : Json) (s1 s2 : Option Json) (m : String)
    (h2 : unmarshalModelField (some j) = .ok m)
    (hp : determineProviderFromModel env.store m ≠ "ollama") :
    handleChat env { method := method, headers := headers, rawBody := raw1,
                     parsedBody := some (streamVariant j s1) } =
    handleChat env { method := method, headers := headers, rawBody := raw2,
                     parsedBody := some (streamVariant j s2) } := by
  have hb : ((determineProviderFromModel env.store m) == "ollama") = false :=
    beq_eq_false_iff_ne.mpr hp
  simp only [handleChat, unmarshalModelField_streamVariant, unmarshalChatRequest_streamVariant, h2]
  by_cases h0 : determineProviderFromModel env.store m = ""
  · simp [h0]
  · have e0 : ((determineProviderFromModel env.store m) == "") = false :=
      beq_eq_false_iff_ne.mpr h0
    simp only [e0, Bool.false_eq_true, if_false]
    cases env.store.getProviderByName (determineProviderFromModel env.store m) with
    | error e => rfl
    | ok o =>
      cases o with
      | none => rfl
      | some prov => simp only [hb, Bool.false_eq_true, if_false]

/-- C8 witness: the demo-1 request with stream:true versus without stream,
with different raw bytes, replied to identically. -/
theorem c8_stream_never_honored_witness :
    handleChat demoEnv { method := "POST", headers := [("Content-Type", "application/json")],
                         rawBody := "raw-with-stream",
                         parsedBody := some (streamVariant
                           (.obj [("model", .str "demo-1"),
                             ("messages", .arr [.obj [("role", .str "user"), ("content", .str "hi")]])])
                           (some (.bool true))) } =
    handleChat demoEnv { method := "POST", headers := [("Content-Type", "application/json")],
                         rawBody := "raw-without-stream",
                         parsedBody := some (streamVariant
                           (.obj [("model", .str "demo-1"),
                             ("messages", .arr [.obj [("role", .str "user"), ("content", .str "hi")]])])
                           none) } :=
  c8_stream_never_honored_on_translate demoEnv "POST" [("Content-Type", "application/json")]
    "raw-with-stream" "raw-without-stream"
    (.obj [("model", .str "demo-1"),
      ("messages", .arr [.obj [("role", .str "user"), ("content", .str "hi")]])])
    (some (.bool true)) none "demo-1" rfl (by decide)

/-- The processedModels bookkeeping of the listing loops: provided every
already-emitted key is in the seen set and the emitted keys are duplicate
free, the same holds after one phase, and the seen set only grows. -/
theorem dedupAppend_inv {α : Type} (mk : Model → α) (key : α → String)
    (hmk : ∀ m, key (mk m) = m.modelID) (ca : Bool) :
    ∀ (ms : List Model) (entries : List α) (seen : List String),
      ((entries.map key).Nodup) → (∀ a ∈ entries, key a ∈ seen) →
      ((dedupAppend mk ca ms entries seen).1.map key).Nodup ∧
      (∀ a ∈ (dedupAppend mk ca ms entries seen).1,
        key a ∈ (dedupAppend mk ca ms entries seen).2) ∧
      (∀ s ∈ seen, s ∈ (dedupAppend mk ca ms entries seen).2) := by
  intro ms
  induction ms with
  | nil =>
    intro entries seen h1 h2
    exact ⟨h1, h2, fun s hs => hs⟩
  | cons m rest ih =>
    intro entries seen h1 h2
    by_cases hc1 : (ca && !m.isActive) = true
    · simp only [dedupAppend, hc1, if_true]
      exact ih entries seen h1 h2
    · by_cases hc2 : seen.contains m.modelID = true
      · simp only [dedupAppend, hc1, Bool.false_eq_true, if_false, hc2, if_true]
        exact ih entries seen h1 h2
      · have hnotin : m.modelID ∉ seen := by
          intro hmem
          exact hc2 (List.elem_eq_true_of_mem hmem)
        have h1' : (((entries ++ [mk m]).map key).Nodup) := by
          rw [List.map_append, List.nodup_append]
          refine ⟨h1, by simp, ?_⟩
          intro x hx hy
          simp only [List.map_cons, List.map_nil, List.mem_singleton, hmk] at hy
          obtain ⟨a, ha, rfl⟩ := List.mem_map.mp hx
          exact hnotin (hy ▸ h2 a ha)
        have h2' : ∀ a ∈ entries ++ [mk m], key a ∈ seen ++ [m.modelID] := by
          intro a ha
          rcases List.mem_append.mp ha with hl | hr
          · exact List.mem_append.mpr (Or.inl (h2 a hl))
          · rw [List.mem_singleton.mp hr, hmk]
            exact List.mem_append.mpr (Or.inr (by simp))
        have hres := ih (entries ++ [mk m]) (seen ++ [m.modelID]) h1' h2'
        simp only [dedupAppend, hc1, Bool.false_eq_true, if_false, hc2]
        exact ⟨hres.1, hres.2.1, fun s hs =>
          hres.2.2 s (List.mem_append.mpr (Or.inl hs))⟩

/-- listModels' provider loop keeps entry ids duplicate free. -/
theorem listModelsLoop_nodup (env : RouterEnv) :
    ∀ (ps : List Provider) (entries : List ModelEntry) (seen : List String),
      ((entries.map (fun e => e.id)).Nodup) → (∀ a ∈ entries, a.id ∈ seen) →
      ((listModelsLoop env ps entries seen).map (fun e => e.id)).Nodup := by
  intro ps
  induction ps with
  | nil =>
    intro entries seen h1 h2
    exact h1
  | cons p rest ih =>
    intro entries seen h1 h2
    by_cases hk : createProviderKnown p.name = true
    · have hknot : (!createProviderKnown p.name) = false := by simp [hk]
      simp only [listModelsLoop, hknot, Bool.false_eq_true, if_false]
      have step1 :
          ∀ r : List ModelEntry × List String,
            ((r.1.map (fun e => e.id)).Nodup) → (∀ a ∈ r.1, a.id ∈ r.2) →
            ((listModelsLoop env rest r.1 r.2).map (fun e => e.id)).Nodup :=
        fun r hr1 hr2 => ih r.1 r.2 hr1 hr2
      cases hf : env.fetchModels p with
      | error e =>
        cases hl : env.store.getModelsByProviderID p.id with
        | error e2 => exact ih entries seen h1 h2
        | ok localModels =>
          have hres := dedupAppend_inv (mkModelEntry p.name env.nowUnix) (fun e => e.id)
            (fun m => rfl) true localModels entries seen h1 h2
          exact step1 _ hres.1 hres.2.1
      | ok fetched =>
        have hres := dedupAppend_inv (mkModelEntry p.name env.nowUnix) (fun e => e.id)
          (fun m => rfl) false fetched entries seen h1 h2
        cases hl : env.store.getModelsByProviderID p.id with
        | error e2 => exact step1 _ hres.1 hres.2.1
        | ok localModels =>
          have hres2 := dedupAppend_inv (mkModelEntry p.name env.nowUnix) (fun e => e.id)
            (fun m => rfl) true localModels _ _ hres.1 hres.2.1
          exact step1 _ hres2.1 hres2.2.1
    · have hknot : (!createProviderKnown p.name) = true := by simp [hk]
      simp only [listModelsLoop, hknot, if_true]
      exact ih entries seen h1 h2

/-- listTags' provider loop keeps tag names duplicate free. -/
theorem listTagsLoop_nodup (env : RouterEnv) :
    ∀ (ps : List Provider) (entries : List TagEntry) (seen : List String),
      ((entries.map (fun e => e.name)).Nodup) → (∀ a ∈ entries, a.name ∈ seen) →
      ((listTagsLoop env ps entries seen).map (fun e => e.name)).Nodup := by
  intro ps
  induction ps with
  | nil =>
    intro entries seen h1 h2
    exact h1
  | cons p rest ih =>
    intro entries seen h1 h2
    by_cases hk : createProviderKnown p.name = true
    · have hknot : (!createProviderKnown p.name) = false := by simp [hk]
      simp only [listTagsLoop, hknot, Bool.false_eq_true, if_false]
      have step1 :
          ∀ r : List TagEntry × List String,
            ((r.1.map (fun e => e.name)).Nodup) → (∀ a ∈ r.1, a.name ∈ r.2) →
            ((listTagsLoop env rest r.1 r.2).map (fun e => e.name)).Nodup :=
        fun r hr1 hr2 => ih r.1 r.2 hr1 hr2
      cases hf : env.fetchModels p with
      | error e =>
        cases hl : env.store.getModelsByProviderID p.id with
        | error e2 => exact ih entries seen h1 h2
        | ok localModels =>
          have hres := dedupAppend_inv (mkTagEntry env.nowRFC3339) (fun e => e.name)
            (fun m => rfl) true localModels entries seen h1 h2
          exact step1 _ hres.1 hres.2.1
      | ok fetched =>
        have hres := dedupAppend_inv (mkTagEntry env.nowRFC3339) (fun e => e.name)
          (fun m => rfl) false fetched entries seen h1 h2
        cases hl : env.store.getModelsByProviderID p.id with
        | error e2 => exact step1 _ hres.1 hres.2.1
        | ok localModels =>
          have hres2 := dedupAppend_inv (mkTagEntry env.nowRFC3339) (fun e => e.name)
            (fun m => rfl) true localModels _ _ hres.1 hres.2.1
          exact step1 _ hres2.1 hres2.2.1
    · have hknot : (!createProviderKnown p.name) = true := by simp [hk]
      simp only [listTagsLoop, hknot, if_true]
      exact ih entries seen h1 h2

/-- C9: for any provider list and any provider/database behavior, the
/api/v1/models entries have pairwise distinct ids and the /api/tags entries
have pairwise distinct names: an id seen earlier in the scan is never emitted
again. -/
theorem c9_listings_no_duplicate_ids (env : RouterEnv) (ps : List Provider) :
    ((listModelsLoop env ps [] []).map (fun e => e.id)).Nodup ∧
    ((listTagsLoop env ps [] []).map (fun e => e.name)).Nodup :=
  ⟨listModelsLoop_nodup env ps [] [] (by simp) (by simp),
   listTagsLoop_nodup env ps [] [] (by simp) (by simp)⟩

/-- The Unsupported-model message never collides with the parse-error message,
whatever the model string: their first characters differ. -/
theorem unsupported_model_msg_ne (m : String) :
    "Unsupported model: " ++ m ≠ "Invalid request body: missing model field" := by
  intro h
  have hh : (some 'U' : Option Char) = some 'I' := by
    calc (some 'U' : Option Char)
        = ("Unsupported model: " ++ m).data.head? := rfl
      _ = "Invalid request body: missing model field".data.head? := by rw [h]
      _ = some 'I' := rfl
  cases hh

/-- The Unsupported-provider message never collides with the parse-error
message either. -/
theorem unsupported_provider_msg_ne (p : String) :
    "Unsupported provider: " ++ p ≠ "Invalid request body: missing model field" := by
  intro h
  have hh : (some 'U' : Option Char) = some 'I' := by
    calc (some 'U' : Option Char)
        = ("Unsupported provider: " ++ p).data.head? := rfl
      _ = "Invalid request body: missing model field".data.head? := by rw [h]
      _ = some 'I' := rfl
  cases hh

/-- C10: a syntactically valid JSON object body lacking the model field is
not rejected at the parse step — it proceeds to resolution with the empty
model id and fails as 400 "Unsupported model: " — and conversely the
"Invalid request body: missing model field" client error is emitted only when
the model-detection unmarshal itself fails. -/
theorem c10_missing_model_not_a_parse_error :
    (∀ (env : RouterEnv) (req : InboundRequest) (fields : List (String × Json)),
      req.parsedBody = some (.obj fields) →
      lookupLast "model" fields = none →
      handleChat env req =
        ({ status := 400, body := .jsonVal (errorJson "Unsupported model: ") }, [])) ∧
    (∀ (env : RouterEnv) (req : InboundRequest) (m : String),
      unmarshalModelField req.parsedBody = .ok m →
      handleChat env req ≠
        ({ status := 400,
           body := .jsonVal (errorJson "Invalid request body: missing model field") }, [])) := by
  constructor
  · intro env req fields hp hnone
    have hok : unmarshalModelField req.parsedBody = .ok "" := by
      rw [hp]
      simp [unmarshalModelField, decodeStringField, hnone]
    have hd : determineProviderFromModel env.store "" = "" := rfl
    have hmsg : "Unsupported model: " ++ "" = "Unsupported model: " := by decide
    simp [handleChat, hok, hd, hmsg]
  · intro env req m hok
    simp only [handleChat, hok, forwardOllamaRequestWithBody]
    repeat' split
    all_goals intro heq
    all_goals simp only [Prod.mk.injEq, HttpReply.mk.injEq, ReplyBody.jsonVal.injEq,
      errorJson, Json.obj.injEq, List.cons.injEq, Prod.mk.injEq, Json.str.injEq,
      and_true, true_and] at heq
    all_goals try simp at heq
    all_goals try exact unsupported_model_msg_ne m heq
    all_goals try exact unsupported_provider_msg_ne _ heq

/-- C10 witness: a body holding only messages is answered with
400 Unsupported model (empty name), not with the missing-model parse error. -/
theorem c10_missing_model_witness :
    handleChat demoEnv noModelReq =
      ({ status := 400, body := .jsonVal (errorJson "Unsupported model: ") }, []) :=
  c10_missing_model_not_a_parse_error.1 demoEnv noModelReq
    [("messages", .arr [.obj [("role", .str "user"), ("content", .str "hi")]])] rfl rfl

end Allama
